import Mathlib

/-!
Verification of the Converge-NPS Smartsheet import orchestrator
(`smartsheet-import.py`) against its specification.

The script is embedded shallowly: each Python function becomes a Lean
function over an explicit model of JSON values and HTTP outcomes.  The
network is modelled by an environment that maps each request to the
response the backend would give; console output is modelled as a list of
emitted messages, and `sys.exit` as the resulting process exit code.
-/

namespace ConvergeNPS

/-- JSON values, as produced by `response.json()`.  Numbers are modelled as
integers (all counts in the protocol are integral). -/
inductive JVal where
  | null
  | bool (b : Bool)
  | num (n : Int)
  | str (s : String)
  | arr (xs : List JVal)
  | obj (fields : List (String × JVal))

/-- Python truthiness of a JSON value (`if token:` etc.): `None`, `False`,
`0`, `""`, `[]` and `{}` are falsy, everything else truthy. -/
def truthy : JVal → Bool
  | .null => false
  | .bool b => b
  | .num n => n != 0
  | .str s => s != ""
  | .arr xs => !xs.isEmpty
  | .obj fs => !fs.isEmpty

/-- First binding of a key in a JSON object (Python dict lookup). -/
def jLookup : List (String × JVal) → String → Option JVal
  | [], _ => none
  | (k, v) :: fs, key => if k = key then some v else jLookup fs key

/-- Python `v.get(key, default)`: raises `AttributeError` when `v` is not a
dict.  Exception text is abstracted to a fixed message. -/
def pyGetD (v : JVal) (key : String) (dflt : JVal) : Except String JVal :=
  match v with
  | .obj fs => .ok ((jLookup fs key).getD dflt)
  | _ => .error "AttributeError: object has no attribute get"

/-- Python `v > 0`: defined for ints and bools, `TypeError` otherwise. -/
def pyGtZero : JVal → Except String Bool
  | .num n => .ok (decide (0 < n))
  | .bool b => .ok b
  | _ => .error "TypeError: unorderable types"

/-- Python `v == 0`: true exactly for the int `0` and for `False`;
comparison never raises. -/
def pyEqZero : JVal → Bool
  | .num n => n == 0
  | .bool b => !b
  | _ => false

/-- Python `v[:5]`: lists slice to their first five elements, strings to
their first five one-character strings; other values raise `TypeError`. -/
def pySlice5 : JVal → Except String (List JVal)
  | .arr xs => .ok (xs.take 5)
  | .str s => .ok ((s.toList.take 5).map (fun c => .str (String.mk [c])))
  | _ => .error "TypeError: unsubscriptable object"

mutual
/-- Python `repr` of a JSON value (string quoting uses double quotes;
Python would use single quotes, which changes no claim). -/
def pyrepr : JVal → String
  | .null => "None"
  | .bool true => "True"
  | .bool false => "False"
  | .num n => toString n
  | .str s => "\"" ++ s ++ "\""
  | .arr xs => "[" ++ pyreprElems xs ++ "]"
  | .obj fs => "\x7b" ++ pyreprFields fs ++ "\x7d"

def pyreprElems : List JVal → String
  | [] => ""
  | [x] => pyrepr x
  | x :: y :: xs => pyrepr x ++ ", " ++ pyreprElems (y :: xs)

def pyreprFields : List (String × JVal) → String
  | [] => ""
  | [(k, v)] => "\"" ++ k ++ "\": " ++ pyrepr v
  | (k, v) :: f :: fs => "\"" ++ k ++ "\": " ++ pyrepr v ++ ", " ++ pyreprFields (f :: fs)
end

/-- Python `str` of a JSON value, as used by f-string interpolation:
strings are rendered bare, everything else via `repr`. -/
def pystr : JVal → String
  | .str s => s
  | v => pyrepr v

/-- `json.dumps` of a JSON value (the `indent=2` layout is elided: the
serialized text appears only inside diagnostic messages). -/
def dumps : JVal → String :=
  pyrepr

/-- Outcome of one `requests.post` call: either a response carrying a
status code, the result of `response.json()` (`Except.error` when the body
does not parse) and `response.text`, or a raised transport exception. -/
inductive HttpOutcome where
  | resp (status : Nat) (body : Except String JVal) (text : String)
  | exn (msg : String)

/-- One console message, tagged by the printing helper that emitted it.
`print_header` decorates its message with banner lines; the decoration is
elided and the header is one event. -/
inductive Msg where
  | header (s : String)
  | success (s : String)
  | error (s : String)
  | info (s : String)
  | warning (s : String)
  | plain (s : String)
deriving DecidableEq

/-- One HTTP request issued by the script, identified by endpoint:
`POST /auth/login`, or `POST /admin/smartsheet/import/{category}`. -/
inductive Call where
  | login
  | importReq (category : String)
deriving DecidableEq

def ADMIN_EMAIL : String := "admin@converge-nps.com"

/-- Token extraction of `get_admin_token` lines 59: the Python expression
`data.get("accessToken") or data.get("data", \x7b\x7d).get("accessToken")`.
`or` short-circuits on a truthy first operand; `.get` on a non-dict raises
`AttributeError` (propagated as `Except.error`). -/
def extractToken (data : JVal) : Except String JVal :=
  match data with
  | .obj fs =>
    let top := (jLookup fs "accessToken").getD .null
    if truthy top then .ok top
    else
      match (jLookup fs "data").getD (.obj []) with
      | .obj gs => .ok ((jLookup gs "accessToken").getD .null)
      | _ => .error "AttributeError: object has no attribute get"
  | _ => .error "AttributeError: object has no attribute get"

/-- `get_admin_token` (lines 45-73): logs in and returns a token, or
`none` on any failure.  Returns the issued call, the printed messages,
and the token. -/
def get_admin_token (r : HttpOutcome) : List Call × List Msg × Option JVal :=
  ([.login],
   let pre := [Msg.info ("Logging in as " ++ ADMIN_EMAIL ++ "...")]
   match r with
   | .exn e => (pre ++ [.error ("Login error: " ++ e)], none)
   | .resp status body text =>
     if status = 200 then
       match body with
       | .error e => (pre ++ [.error ("Login error: " ++ e)], none)
       | .ok data =>
         match extractToken data with
         | .error e => (pre ++ [.error ("Login error: " ++ e)], none)
         | .ok token =>
           if truthy token then
             (pre ++ [.success "Successfully authenticated"], some token)
           else
             (pre ++ [.error "No access token in response",
                      .error ("Response: " ++ dumps data)], none)
     else
       (pre ++ [.error ("Login failed: " ++ toString status),
                .error ("Response: " ++ text)], none))

/-- The decomposition of a 200 import response (lines 89-95 of
`import_data`): `result = data.get("data", \x7b\x7d)` followed by the four
field reads with their defaults.  Fields are carried unchanged. -/
structure ImportCounts where
  imported : JVal
  updated : JVal
  failed : JVal
  errors : JVal

def decompose (data : JVal) : Except String ImportCounts := do
  let result ← pyGetD data "data" (.obj [])
  let imported ← pyGetD result "imported" (.num 0)
  let updated ← pyGetD result "updated" (.num 0)
  let failed ← pyGetD result "failed" (.num 0)
  let errors ← pyGetD result "errors" (.arr [])
  .ok ⟨imported, updated, failed, errors⟩

/-- One iteration of the row-error display loop (lines 102-105):
`error.get("row", "?")`, `error.get("message", "Unknown error")` and the
warning line. -/
def rowWarning (e : JVal) : Except String Msg := do
  let row ← pyGetD e "row" (.str "?")
  let message ← pyGetD e "message" (.str "Unknown error")
  .ok (.warning ("  Row " ++ pystr row ++ ": " ++ pystr message))

/-- The row-error display loop over the first five errors.  A raised
exception stops the loop; messages printed before it are kept, and the
exception text is returned so the caller's handler can report it. -/
def rowLoop : List JVal → List Msg × Option String
  | [] => ([], none)
  | e :: es =>
    match rowWarning e with
    | .error err => ([], some err)
    | .ok m =>
      let rest := rowLoop es
      (m :: rest.1, rest.2)

/-- `import_data` (lines 75-115): one per-category import request.
Returns the issued call, the printed messages, and the boolean result
(`failed == 0` on a decoded 200 response, `False` on any failure). -/
def import_data (_token : JVal) (data_type : String) (r : HttpOutcome) :
    List Call × List Msg × Bool :=
  ([.importReq data_type],
   let pre := [Msg.info ("Importing " ++ data_type ++ "...")]
   match r with
   | .exn e => (pre ++ [.error ("Import error: " ++ e)], false)
   | .resp status body text =>
     if status = 200 then
       match body with
       | .error e => (pre ++ [.error ("Import error: " ++ e)], false)
       | .ok data =>
         match decompose data with
         | .error e => (pre ++ [.error ("Import error: " ++ e)], false)
         | .ok c =>
           let m1 := Msg.success ("Imported " ++ pystr c.imported ++ " new " ++ data_type)
           match pyGtZero c.updated with
           | .error e => (pre ++ [m1, .error ("Import error: " ++ e)], false)
           | .ok updPos =>
             let m2 := if updPos
               then [Msg.info ("Updated " ++ pystr c.updated ++ " existing " ++ data_type)]
               else []
             match pyGtZero c.failed with
             | .error e => (pre ++ [m1] ++ m2 ++ [.error ("Import error: " ++ e)], false)
             | .ok failPos =>
               if failPos then
                 let m3 := Msg.warning ("Failed to import " ++ pystr c.failed ++ " " ++ data_type)
                 match pySlice5 c.errors with
                 | .error e =>
                   (pre ++ [m1] ++ m2 ++ [m3, .error ("Import error: " ++ e)], false)
                 | .ok taken =>
                   match rowLoop taken with
                   | (ms, some err) =>
                     (pre ++ [m1] ++ m2 ++ [m3] ++ ms ++ [.error ("Import error: " ++ err)], false)
                   | (ms, none) =>
                     (pre ++ [m1] ++ m2 ++ [m3] ++ ms, pyEqZero c.failed)
               else
                 (pre ++ [m1] ++ m2, pyEqZero c.failed)
     else
       (pre ++ [.error ("Import failed: " ++ toString status),
                .error ("Response: " ++ text)], false))

/-- `import_all` (lines 117-142): the single "all" import request.
On 200, `print_success` runs before the summary dump, so a `data.get`
exception still leaves the success line printed. -/
def import_all (_token : JVal) (r : HttpOutcome) : List Call × List Msg × Bool :=
  ([.importReq "all"],
   let pre := [Msg.info "Importing all data from Smartsheet..."]
   match r with
   | .exn e => (pre ++ [.error ("Import error: " ++ e)], false)
   | .resp status body text =>
     if status = 200 then
       match body with
       | .error e => (pre ++ [.error ("Import error: " ++ e)], false)
       | .ok data =>
         let m1 := Msg.success "Successfully imported all data"
         match pyGetD data "data" (.obj []) with
         | .error e => (pre ++ [m1, .error ("Import error: " ++ e)], false)
         | .ok summary => (pre ++ [m1, .info (dumps summary)], true)
     else
       (pre ++ [.error ("Import failed: " ++ toString status),
                .error ("Response: " ++ text)], false))

/-- The fixed category list of the Sequential strategy (line 176). -/
def data_types : List String := ["attendees", "sessions", "projects", "partners"]

/-- The run environment: the backend's response to the login request, the
operator's (stripped) menu choice, and the backend's response to
each import request, keyed by the endpoint's category segment ("all" for the
atomic endpoint). -/
structure Env where
  loginResp : HttpOutcome
  choice : String
  importResp : String → HttpOutcome

/-- The Sequential loop (lines 179-184): runs `import_data` for each
category in order, clearing the `all_success` flag on each failure.
`time.sleep(1)` is a pacing no-op with no observable effect and is
elided.  Returns the issued calls, messages, and the final flag. -/
def seqLoop (env : Env) (token : JVal) : List String → Bool → List Call × List Msg × Bool
  | [], allSuccess => ([], [], allSuccess)
  | d :: ds, allSuccess =>
    let r := import_data token d (env.importResp d)
    let rest := seqLoop env token ds (if r.2.2 then allSuccess else false)
    (r.1 ++ rest.1, r.2.1 ++ rest.2.1, rest.2.2)

/-- Everything observable about one process run: the exit status, the
HTTP requests issued (in order), and the console output (in order). -/
structure RunTrace where
  exitCode : Nat
  calls : List Call
  msgs : List Msg

def eqBar : String := String.mk (List.replicate 60 '=')

/-- The strategy menu and the `input` prompt (lines 161-165). -/
def menuMsgs : List Msg :=
  [.plain "\nChoose import method:",
   .plain "1. Import all data at once (recommended)",
   .plain "2. Import data type by type",
   .plain "\nEnter choice (1 or 2): "]

/-- The closing banner (lines 195-199), reached whenever the script does
not `sys.exit(1)` first. -/
def finalMsgs : List Msg :=
  [.plain ("\n" ++ eqBar),
   .success "You can now access the application with real data!",
   .info "Frontend: http://localhost:5173",
   .info "Backend: http://localhost:3000",
   .plain (eqBar ++ "\n")]

def authFailMsgs : List Msg :=
  [.error "Failed to authenticate. Please check:",
   .info "1. Backend server is running (npm run dev)",
   .info "2. Admin user exists in database",
   .info "3. Password is correct"]

/-- `main` (lines 144-199).  `sys.exit(1)` yields exit code 1; falling off
the end of `main` yields exit code 0. -/
def main (env : Env) : RunTrace :=
  let h1 := [Msg.header "Converge-NPS Smartsheet Import", Msg.header "Step 1: Authentication"]
  let auth := get_admin_token env.loginResp
  match auth.2.2 with
  | none =>
    { exitCode := 1, calls := auth.1, msgs := h1 ++ auth.2.1 ++ authFailMsgs }
  | some token =>
    let h2 := Msg.header "Step 2: Import Data from Smartsheet" :: menuMsgs
    if env.choice = "1" then
      let ia := import_all token (env.importResp "all")
      if ia.2.2 then
        { exitCode := 0, calls := auth.1 ++ ia.1,
          msgs := h1 ++ auth.2.1 ++ h2 ++ ia.2.1 ++
            [.header "Import Complete!",
             .success "All data has been imported from Smartsheet"] ++ finalMsgs }
      else
        { exitCode := 1, calls := auth.1 ++ ia.1,
          msgs := h1 ++ auth.2.1 ++ h2 ++ ia.2.1 ++
            [.error "Import failed. Please check the error messages above."] }
    else if env.choice = "2" then
      let sq := seqLoop env token data_types true
      let tail := if sq.2.2
        then [Msg.header "Import Complete!",
              Msg.success "All data has been imported from Smartsheet"]
        else [Msg.warning "Import completed with some errors. Check messages above."]
      { exitCode := 0, calls := auth.1 ++ sq.1, msgs := h1 ++ auth.2.1 ++ h2 ++ sq.2.1 ++ tail ++ finalMsgs }
    else
      { exitCode := 1, calls := auth.1, msgs := h1 ++ auth.2.1 ++ h2 ++ [.error "Invalid choice"] }

/-! Specification-side definitions, written from the spec text rather than
from the source, for the refinement claims. -/

/-- Token extraction as worded by the spec (section 4.1): two accepted
response shapes — a top-level token field, and a token nested one level
under a "data" field — checked in that order, the first present winning;
if neither shape yields a token the result is an authentication failure.
Per the spec's falsy-fall-through behaviour, a field holding a falsy value
(such as the empty string) does not count as a present token. -/
def specTokenOfBody (data : JVal) : Option JVal :=
  match data with
  | .obj fs =>
    let top := (jLookup fs "accessToken").getD .null
    if truthy top then some top
    else
      match (jLookup fs "data").getD .null with
      | .obj gs =>
        let nested := (jLookup gs "accessToken").getD .null
        if truthy nested then some nested else none
      | _ => none
  | _ => none

/-- Authentication as worded by the spec (sections 4.1 and 8): a token is
returned exactly when the backend responds 200 with a parseable body
containing a token in an accepted shape; any non-200 status, malformed
body, or transport exception is an authentication failure. -/
def specAuthenticate : HttpOutcome → Option JVal
  | .resp status (.ok data) _ => if status = 200 then specTokenOfBody data else none
  | _ => none

/-- A failed import response at the transport or backend level: either a
raised exception or a non-200 status. -/
def isFailureResp : HttpOutcome → Bool
  | .exn _ => true
  | .resp s _ _ => s != 200

/-- The per-category outcomes of a Sequential run, in input order: the
boolean `import_data` returns for each category. -/
def seqResults (env : Env) (tok : JVal) (ds : List String) : List Bool :=
  ds.map (fun d => (import_data tok d (env.importResp d)).2.2)

/-! Concrete environments used as witnesses and counterexamples. -/

/-- A 200 import response whose data object reports two imported rows and
no failures. -/
def okBody : JVal :=
  .obj [("data", .obj [("imported", .num 2), ("updated", .num 0),
                       ("failed", .num 0), ("errors", .arr [])])]

/-- A 200 login response with a top-level access token. -/
def loginOk : HttpOutcome := .resp 200 (.ok (.obj [("accessToken", .str "tok")])) ""

/-- Sequential run in which the "sessions" import returns a 500 and every
other category succeeds. -/
def envSeqFail : Env :=
  { loginResp := loginOk, choice := "2",
    importResp := fun d =>
      if d = "sessions" then .resp 500 (.error "Expecting value") "Internal Server Error"
      else .resp 200 (.ok okBody) "" }

/-- Atomic run in which the "all" import returns a 503. -/
def envAtomFail : Env :=
  { loginResp := loginOk, choice := "1",
    importResp := fun _ => .resp 503 (.error "Expecting value") "Service Unavailable" }

/-- A run whose login request is rejected with 401. -/
def envAuthFail : Env :=
  { loginResp := .resp 401 (.error "Expecting value") "Unauthorized", choice := "1",
    importResp := fun _ => .exn "unreachable" }

/-! Helper lemmas about the embedded functions. -/

lemma get_admin_token_calls (r : HttpOutcome) : (get_admin_token r).1 = [Call.login] := rfl

lemma import_data_calls (tok : JVal) (d : String) (r : HttpOutcome) :
    (import_data tok d r).1 = [Call.importReq d] := rfl

lemma import_all_calls (tok : JVal) (r : HttpOutcome) :
    (import_all tok r).1 = [Call.importReq "all"] := rfl

lemma import_data_fails_on_failureResp (tok : JVal) (d : String) (r : HttpOutcome)
    (h : isFailureResp r = true) : (import_data tok d r).2.2 = false := by
  cases r with
  | exn e => rfl
  | resp s body txt =>
    have hs : ¬s = 200 := by simpa [isFailureResp] using h
    simp [import_data, hs]

lemma import_all_fails_on_failureResp (tok : JVal) (r : HttpOutcome)
    (h : isFailureResp r = true) : (import_all tok r).2.2 = false := by
  cases r with
  | exn e => rfl
  | resp s body txt =>
    have hs : ¬s = 200 := by simpa [isFailureResp] using h
    simp [import_all, hs]

lemma seqLoop_calls (env : Env) (tok : JVal) :
    ∀ (ds : List String) (b : Bool), (seqLoop env tok ds b).1 = ds.map Call.importReq
  | [], _ => rfl
  | d :: ds, b => by
    simp [seqLoop, seqLoop_calls env tok ds, import_data_calls]

lemma seqLoop_flag (env : Env) (tok : JVal) :
    ∀ (ds : List String) (b : Bool),
      (seqLoop env tok ds b).2.2 = (b && (seqResults env tok ds).all id)
  | [], b => by simp [seqLoop, seqResults]
  | d :: ds, b => by
    simp only [seqLoop, seqResults, List.map_cons, List.all_cons, id]
    rw [seqLoop_flag env tok ds]
    cases h : (import_data tok d (env.importResp d)).2.2 <;> cases b <;>
      simp [seqResults, h]

lemma seqLoop_msgs (env : Env) (tok : JVal) :
    ∀ (ds : List String) (b : Bool),
      (seqLoop env tok ds b).2.1
        = (ds.map (fun d => (import_data tok d (env.importResp d)).2.1)).flatten
  | [], _ => rfl
  | d :: ds, b => by
    simp [seqLoop, seqLoop_msgs env tok ds]

lemma perm_all_eq {l₁ l₂ : List Bool} (h : l₁.Perm l₂) (p : Bool → Bool) :
    l₁.all p = l₂.all p := by
  induction h with
  | nil => rfl
  | cons x _ ih => simp [List.all_cons, ih]
  | swap x y l => simp [List.all_cons, Bool.and_left_comm]
  | trans _ _ ih₁ ih₂ => rw [ih₁, ih₂]

lemma token_of_body_eq (data : JVal) (txt : String) :
    (get_admin_token (.resp 200 (.ok data) txt)).2.2 = specTokenOfBody data := by
  cases data with
  | obj fs =>
    simp only [get_admin_token, extractToken, specTokenOfBody, if_pos rfl]
    by_cases htop : truthy ((jLookup fs "accessToken").getD .null)
    · simp [htop]
    · simp only [htop, if_false, Bool.false_eq_true]
      cases hd : jLookup fs "data" with
      | none => simp [jLookup, truthy]
      | some v =>
        cases v with
        | obj gs =>
          by_cases hn : truthy ((jLookup gs "accessToken").getD JVal.null) <;> simp [hn]
        | null => simp
        | bool b => simp
        | num n => simp
        | str s => simp
        | arr xs => simp
  | null => rfl
  | bool b => rfl
  | num n => rfl
  | str s => rfl
  | arr xs => rfl

/-! Claim theorems. -/

/-- C2: for all credential pairs, `authenticate` (here `get_admin_token`)
returns a token if and only if the backend responds 200 and the body
contains a token in one of the two accepted shapes (top-level field, or
nested one level under "data"), checked in that order with the first
present winning; on non-200 status, malformed or empty body, or a raised
transport exception it returns no token.  Stated as: the token component
of `get_admin_token` coincides with `specAuthenticate`, the extraction
worded by the spec. -/
theorem authenticate_token_iff_spec (r : HttpOutcome) :
    (get_admin_token r).2.2 = specAuthenticate r := by
  cases r with
  | exn e => rfl
  | resp s body txt =>
    by_cases hs : s = 200
    · subst hs
      cases body with
      | error e => rfl
      | ok data => exact token_of_body_eq data txt
    · cases body with
      | error e => simp [get_admin_token, specAuthenticate, hs]
      | ok data => simp [get_admin_token, specAuthenticate, hs]

/-- C10: a 200 login response whose top-level accessToken is present but
falsy (the empty string) does not stop token extraction at the first
shape: the nested data.accessToken shape is consulted, and when it too is
absent or falsy, authentication fails — a present-but-empty top-level
token never authenticates the run. -/
theorem empty_top_level_token_falls_through (t : JVal) :
    (get_admin_token (.resp 200 (.ok (.obj [("accessToken", .str ""),
        ("data", .obj [("accessToken", t)])])) "")).2.2
      = (if truthy t then some t else none)
    ∧ (get_admin_token (.resp 200 (.ok (.obj [("accessToken", .str "")])) "")).2.2
      = none := by
  refine ⟨?_, rfl⟩
  have h0 : truthy (JVal.str "") = false := rfl
  cases ht : truthy t <;>
    simp [get_admin_token, extractToken, jLookup, h0, ht]

/-- C3: whenever authentication fails (`get_admin_token` returns no
token), the run performs no import call for any category and no "all"
call: the only request issued is the login request, and the process exits
with the non-zero status 1. -/
theorem auth_failure_fatal (env : Env)
    (h : (get_admin_token env.loginResp).2.2 = none) :
    (main env).exitCode = 1 ∧ (main env).calls = [Call.login]
    ∧ ∀ c, Call.importReq c ∉ (main env).calls := by
  simp [main, h, get_admin_token_calls]

/-- Witness for C3: the run whose login is rejected with 401 exits with
status 1 after issuing only the login request. -/
theorem auth_failure_fatal_witness :
    (main envAuthFail).exitCode = 1 ∧ (main envAuthFail).calls = [Call.login]
    ∧ ∀ c, Call.importReq c ∉ (main envAuthFail).calls :=
  auth_failure_fatal envAuthFail rfl

/-- C7: a 200 per-category import response is decomposed into `imported`,
`updated`, `failed` and `errors` with each field reproduced exactly as
sent, and a backend that omits a field is not an error: the missing
counts default to 0 and the missing error list to empty. -/
theorem decompose_passthrough_defaults (i u f e : JVal) :
    decompose (.obj [("data", .obj [("imported", i), ("updated", u),
        ("failed", f), ("errors", e)])])
      = .ok ⟨i, u, f, e⟩
    ∧ decompose (.obj [("data", .obj [("imported", i)])])
      = .ok ⟨i, .num 0, .num 0, .arr []⟩
    ∧ decompose (.obj [("data", .obj [])])
      = .ok ⟨.num 0, .num 0, .num 0, .arr []⟩
    ∧ decompose (.obj [])
      = .ok ⟨.num 0, .num 0, .num 0, .arr []⟩ :=
  ⟨rfl, rfl, rfl, rfl⟩

/-- C1 counterexample: in a Sequential run whose "sessions" import fails
with a 500 (so the run's overall-success flag is false), the process
nevertheless exits with status 0 — refuting the claim that such a run
must terminate with a non-zero exit status. -/
theorem seq_category_failure_exits_zero :
    (main envSeqFail).exitCode = 0
    ∧ (seqLoop envSeqFail (JVal.str "tok") data_types true).2.2 = false :=
  ⟨rfl, rfl⟩

/-- C1 amended: after successful authentication the process exits with
status 0 exactly when the Sequential strategy was chosen (regardless of
category failures) or the Atomic strategy was chosen and its lone
all-import succeeded; every other completed run (Atomic failure, invalid
choice) exits with status 1, as does an authentication failure. -/
theorem exit_zero_iff_after_auth (env : Env) (token : JVal)
    (hA : (get_admin_token env.loginResp).2.2 = some token) :
    (main env).exitCode = 0 ↔
      (env.choice = "2"
       ∨ (env.choice = "1" ∧ (import_all token (env.importResp "all")).2.2 = true)) := by
  by_cases h1 : env.choice = "1"
  · cases hI : (import_all token (env.importResp "all")).2.2 <;>
      simp [main, hA, h1, hI]
  · by_cases h2 : env.choice = "2" <;> simp [main, hA, h1, h2]

/-- Witness for C1 amended: the Sequential run with a failed category
exits with status 0. -/
theorem exit_zero_iff_after_auth_witness : (main envSeqFail).exitCode = 0 :=
  (exit_zero_iff_after_auth envSeqFail (JVal.str "tok") rfl).mpr (Or.inl rfl)

/-- C4: under the Sequential strategy, a failing category (transport
exception or non-200 response) does not abort the loop: every category in
the fixed list is called exactly once, in the declared order, the failed
category's result is recorded as failed, and the run's overall-success
flag is false. -/
theorem sequential_failure_isolated (env : Env) (token : JVal) (d : String)
    (hA : (get_admin_token env.loginResp).2.2 = some token)
    (hC : env.choice = "2")
    (hd : d ∈ data_types)
    (hf : isFailureResp (env.importResp d) = true) :
    (main env).calls = Call.login :: data_types.map Call.importReq
    ∧ (import_data token d (env.importResp d)).2.2 = false
    ∧ (seqLoop env token data_types true).2.2 = false := by
  have hfail := import_data_fails_on_failureResp token d _ hf
  have hflag : (seqLoop env token data_types true).2.2 = false := by
    rw [seqLoop_flag]
    have : ¬((seqResults env token data_types).all id = true) := by
      rw [List.all_eq_true]
      intro hall
      have hmem : (import_data token d (env.importResp d)).2.2
          ∈ seqResults env token data_types :=
        List.mem_map_of_mem _ hd
      have h5 := hall _ hmem
      rw [hfail] at h5
      simp at h5
    simp [Bool.eq_false_iff.mpr this]
  refine ⟨?_, hfail, hflag⟩
  have h1 : ¬env.choice = "1" := by rw [hC]; decide
  simp [main, hA, h1, hC, get_admin_token_calls, seqLoop_calls]

/-- Witness for C4: the Sequential run whose "sessions" import returns a
500 still issues all four category calls in order, records "sessions" as
failed, and ends with overall success false. -/
theorem sequential_failure_isolated_witness :
    (main envSeqFail).calls = Call.login :: data_types.map Call.importReq
    ∧ (import_data (JVal.str "tok") "sessions" (envSeqFail.importResp "sessions")).2.2 = false
    ∧ (seqLoop envSeqFail (JVal.str "tok") data_types true).2.2 = false :=
  sequential_failure_isolated envSeqFail (JVal.str "tok") "sessions" rfl rfl
    (by decide) rfl

/-- C5: under the Atomic strategy exactly one import call is made, to the
"all" endpoint — no per-category call is ever issued — and if that call
fails (non-200 or transport exception) the run ends with exit status 1
and a false result from `import_all`. -/
theorem atomic_single_call (env : Env) (token : JVal)
    (hA : (get_admin_token env.loginResp).2.2 = some token)
    (hC : env.choice = "1") :
    (main env).calls = [Call.login, Call.importReq "all"]
    ∧ (isFailureResp (env.importResp "all") = true →
        (main env).exitCode = 1
        ∧ (import_all token (env.importResp "all")).2.2 = false) := by
  constructor
  · cases hI : (import_all token (env.importResp "all")).2.2 <;>
      simp [main, hA, hC, hI, get_admin_token_calls, import_all_calls]
  · intro hf
    have hfail := import_all_fails_on_failureResp token _ hf
    refine ⟨?_, hfail⟩
    simp [main, hA, hC, hfail]

/-- Witness for C5: the Atomic run whose "all" import returns a 503
issues exactly the login and "all" calls and exits with status 1. -/
theorem atomic_single_call_witness :
    (main envAtomFail).calls = [Call.login, Call.importReq "all"]
    ∧ (main envAtomFail).exitCode = 1
    ∧ (import_all (JVal.str "tok") (envAtomFail.importResp "all")).2.2 = false := by
  obtain ⟨h1, h2⟩ := atomic_single_call envAtomFail (JVal.str "tok") rfl rfl
  obtain ⟨h3, h4⟩ := h2 rfl
  exact ⟨h1, h3, h4⟩

/-- C6: the Sequential run's overall-success flag equals the conjunction
over all per-category results of that category's success boolean
(`failed == 0` on a decoded 200 response); this truth value is invariant
under any permutation of the results, while the reported messages — and
the `seqResults` sequence by construction — follow the input category
order. -/
theorem aggregation_conjunction (env : Env) (tok : JVal) (ds : List String) :
    (seqLoop env tok ds true).2.2 = (seqResults env tok ds).all id
    ∧ (∀ l : List Bool, (seqResults env tok ds).Perm l →
        (seqLoop env tok ds true).2.2 = l.all id)
    ∧ (seqLoop env tok ds true).2.1
        = (ds.map (fun d => (import_data tok d (env.importResp d)).2.1)).flatten := by
  refine ⟨?_, ?_, seqLoop_msgs env tok ds true⟩
  · rw [seqLoop_flag]; simp
  · intro l hl
    rw [seqLoop_flag, perm_all_eq hl]
    simp

/-- Witness for C6: over the two categories "attendees" (succeeds) and
"sessions" (fails with 500) the flag equals the conjunction of the
permuted result list as well. -/
theorem aggregation_conjunction_witness :
    (seqLoop envSeqFail (JVal.str "tok") ["attendees", "sessions"] true).2.2
      = ([false, true] : List Bool).all id :=
  (aggregation_conjunction envSeqFail (JVal.str "tok") ["attendees", "sessions"]).2.1
    [false, true] (by decide)

/-- C8 counterexample: the outcome `import_data` returns is the same
value `false` for a 401 response, a 403 response, a 500 response and a
connection-level exception — the code yields no `AuthRejected` kind
distinguishable from `BackendError` or `NetworkError`; all failures
collapse to one sentinel result. -/
theorem failure_kinds_not_distinct :
    (import_data (JVal.str "t") "attendees"
        (.resp 401 (.error "Expecting value") "Unauthorized")).2.2
      = (import_data (JVal.str "t") "attendees"
          (.resp 500 (.error "Expecting value") "Internal Server Error")).2.2
    ∧ (import_data (JVal.str "t") "attendees"
        (.resp 403 (.error "Expecting value") "Forbidden")).2.2
      = (import_data (JVal.str "t") "attendees" (.exn "ConnectionError")).2.2
    ∧ (import_data (JVal.str "t") "attendees"
        (.resp 401 (.error "Expecting value") "Unauthorized")).2.2 = false :=
  ⟨rfl, rfl, rfl⟩

/-- C8 amended: a 401/403-class response is handled by the very same
branch as every other non-200 response — the result is `false` and the
printed messages differ only in the literal status code and body text —
while a connection-level exception also returns `false` with an
exception message; no failure-kind classification exists. -/
theorem import_failure_uniform (tok : JVal) (ct : String) (s : Nat)
    (body : Except String JVal) (txt e : String) (hs : s ≠ 200) :
    (import_data tok ct (.resp s body txt)).2.2 = false
    ∧ (import_data tok ct (.resp s body txt)).2.1
        = [.info ("Importing " ++ ct ++ "..."),
           .error ("Import failed: " ++ toString s),
           .error ("Response: " ++ txt)]
    ∧ (import_data tok ct (.exn e)).2.2 = false
    ∧ (import_data tok ct (.exn e)).2.1
        = [.info ("Importing " ++ ct ++ "..."),
           .error ("Import error: " ++ e)] := by
  refine ⟨?_, ?_, rfl, rfl⟩ <;> simp [import_data, hs]

/-- Witness for C8 amended: instantiated at a 401 response. -/
theorem import_failure_uniform_witness :
    (import_data (JVal.str "t") "partners"
        (.resp 401 (.error "Expecting value") "Unauthorized")).2.2 = false
    ∧ (import_data (JVal.str "t") "partners"
        (.resp 401 (.error "Expecting value") "Unauthorized")).2.1
        = [.info ("Importing " ++ "partners" ++ "..."),
           .error ("Import failed: " ++ toString 401),
           .error ("Response: " ++ "Unauthorized")]
    ∧ (import_data (JVal.str "t") "partners" (.exn "ConnectionError")).2.2 = false
    ∧ (import_data (JVal.str "t") "partners" (.exn "ConnectionError")).2.1
        = [.info ("Importing " ++ "partners" ++ "..."),
           .error ("Import error: " ++ "ConnectionError")] :=
  import_failure_uniform (JVal.str "t") "partners" 401 (.error "Expecting value")
    "Unauthorized" "ConnectionError" (by decide)

/-! Definitions and lemmas for the Reporter's bounded error display. -/

/-- One backend row error with an integral row key and a fixed message. -/
def rowErr (n : Int) : JVal := .obj [("row", .num n), ("message", .str "bad")]

/-- Twelve row errors, rows 1 through 12. -/
def errs12 : List JVal :=
  [rowErr 1, rowErr 2, rowErr 3, rowErr 4, rowErr 5, rowErr 6,
   rowErr 7, rowErr 8, rowErr 9, rowErr 10, rowErr 11, rowErr 12]

/-- A 200 import response reporting 12 failed rows with 12 row errors. -/
def body12 : JVal :=
  .obj [("data", .obj [("imported", .num 0), ("updated", .num 0),
                       ("failed", .num 12), ("errors", .arr errs12)])]

/-- Recognizes a row-level error line: a warning whose text begins with
the six characters of "  Row ". -/
def isRowWarning : Msg → Bool
  | .warning s => s.data.take 6 == "  Row ".data
  | _ => false

lemma isRowWarning_info (s : String) : isRowWarning (.info s) = false := rfl

lemma isRowWarning_success (s : String) : isRowWarning (.success s) = false := rfl

lemma isRowWarning_error (s : String) : isRowWarning (.error s) = false := rfl

lemma isRowWarning_failed (x y z : String) :
    isRowWarning (.warning ("Failed to import " ++ x ++ y ++ z)) = false := rfl

lemma rowLoop_length_le : ∀ xs : List JVal, (rowLoop xs).1.length ≤ xs.length
  | [] => Nat.le_refl 0
  | e :: es => by
    simp only [rowLoop]
    cases h : rowWarning e with
    | error err => simp
    | ok m =>
      simpa using Nat.succ_le_succ (rowLoop_length_le es)

lemma pySlice5_length_le (v : JVal) (xs : List JVal) (h : pySlice5 v = .ok xs) :
    xs.length ≤ 5 := by
  cases v <;> simp [pySlice5] at h
  case arr l =>
    rw [← h]
    simp [List.length_take]
  case str s =>
    rw [← h]
    simp [List.length_take]

/-- C9 counterexample: fed a 200 response carrying 12 row errors, the
Reporter emits exactly this output — five row-level warnings and no
truncation indicator of any kind; the remaining seven errors are silently
dropped. -/
theorem reporter_emits_no_truncation_indicator :
    (import_data (JVal.str "t") "attendees" (.resp 200 (.ok body12) "")).2.1
      = [.info "Importing attendees...",
         .success "Imported 0 new attendees",
         .warning "Failed to import 12 attendees",
         .warning "  Row 1: bad",
         .warning "  Row 2: bad",
         .warning "  Row 3: bad",
         .warning "  Row 4: bad",
         .warning "  Row 5: bad"]
    ∧ decompose body12 = .ok ⟨.num 0, .num 0, .num 12, .arr errs12⟩
    ∧ errs12.length = 12 :=
  ⟨rfl, rfl, rfl⟩

/-- C9 amended: for every response, the Reporter emits at most 5
row-level error messages per category; no truncation indicator is
emitted when errors are suppressed. -/
theorem row_warnings_bounded (tok : JVal) (ct : String) (r : HttpOutcome) :
    ((import_data tok ct r).2.1.countP isRowWarning) ≤ 5 := by
  rcases r with ⟨s, body, txt⟩ | e
  · by_cases hs : s = 200
    · subst hs
      cases body with
      | error e =>
        simp [import_data, List.countP_cons, isRowWarning_info, isRowWarning_error]
      | ok data =>
        cases hdec : decompose data with
        | error e =>
          simp [import_data, hdec, List.countP_cons, isRowWarning_info, isRowWarning_error]
        | ok c =>
          cases hupd : pyGtZero c.updated with
          | error e =>
            simp [import_data, hdec, hupd, List.countP_cons, isRowWarning_info,
              isRowWarning_error, isRowWarning_success]
          | ok updPos =>
            cases hfp : pyGtZero c.failed with
            | error e =>
              cases updPos <;>
                simp [import_data, hdec, hupd, hfp, List.countP_cons, isRowWarning_info,
                  isRowWarning_error, isRowWarning_success]
            | ok failPos =>
              cases failPos with
              | false =>
                cases updPos <;>
                  simp [import_data, hdec, hupd, hfp, List.countP_cons, isRowWarning_info,
                    isRowWarning_error, isRowWarning_success]
              | true =>
                cases hsl : pySlice5 c.errors with
                | error e =>
                  cases updPos <;>
                    simp [import_data, hdec, hupd, hfp, hsl, List.countP_cons,
                      isRowWarning_info, isRowWarning_error, isRowWarning_success,
                      isRowWarning_failed]
                | ok taken =>
                  have htk := pySlice5_length_le _ _ hsl
                  rcases hrw : rowLoop taken with ⟨ms, stop⟩
                  have hms : ms.length ≤ 5 := by
                    have h6 := rowLoop_length_le taken
                    rw [hrw] at h6
                    exact h6.trans htk
                  have hcnt : ms.countP isRowWarning ≤ 5 :=
                    (List.countP_le_length _).trans hms
                  cases stop <;> cases updPos <;>
                    simp [import_data, hdec, hupd, hfp, hsl, hrw, List.countP_cons,
                      List.countP_append, isRowWarning_info, isRowWarning_error,
                      isRowWarning_success, isRowWarning_failed] <;>
                    omega
    · simp [import_data, hs, List.countP_cons, isRowWarning_info, isRowWarning_error]
  · simp [import_data, List.countP_cons, isRowWarning_info, isRowWarning_error]

end ConvergeNPS
